import Mathlib

/-!
Shallow embedding of the booking-ledger and rating-aggregation core of the
Ariye vehicle-rental application.

The authoritative schema, row-level-security policies and triggers are the
SQL migration `src/unnamed/part_004` (the later migration, which drops and
recreates all tables).  Client-side derivations come from
`src/app/(tabs)/index.tsx` (booking classification and listing),
`src/lib/auth.ts` (admin reporting) and `src/app/admin/index.tsx`
(dashboard revenue).

Timestamps are modelled as `Int` (a `timestamptz` is a point on a linear
timeline), SQL `numeric` as `ℚ`, identifiers (`uuid`) as `Nat`, and
`text` as `String`.  Each table is a list of rows; a database state is a
record of tables.
-/

namespace AriyeRental

/-- Row of `profiles` (src/unnamed/part_004 lines 26-36); only the columns
the verified operations touch are carried. -/
structure Profile where
  id : Nat
  email : String
  full_name : String
  is_admin : Bool
deriving DecidableEq, Repr

/-- Row of `vehicles` (src/unnamed/part_004 lines 39-66); only the columns
the verified operations touch are carried.  `rating` is `numeric`, hence ℚ. -/
structure Vehicle where
  id : Nat
  name : String
  price_per_day : ℚ
  location : String
  available : Bool
  rating : ℚ
  total_reviews : Nat
deriving DecidableEq, Repr

/-- Row of `bookings` (src/unnamed/part_004 lines 69-97); only the columns
the verified operations touch are carried. -/
structure Booking where
  id : Nat
  user_id : Nat
  vehicle_id : Nat
  start_date : Int
  end_date : Int
  pickup_location : String
  total_price : ℚ
  status : String
  payment_status : String
  created_at : Int
deriving DecidableEq, Repr

/-- Row of `favorites` (src/unnamed/part_004 lines 100-106). -/
structure Favorite where
  id : Nat
  user_id : Nat
  vehicle_id : Nat
deriving DecidableEq, Repr

/-- Row of `reviews` (src/unnamed/part_004 lines 109-118). -/
structure Review where
  id : Nat
  user_id : Nat
  vehicle_id : Nat
  booking_id : Nat
  rating : Nat
  comment : Option String
deriving DecidableEq, Repr

/-- A database state: one list of rows per table. -/
structure DB where
  profiles : List Profile
  vehicles : List Vehicle
  bookings : List Booking
  favorites : List Favorite
  reviews : List Review
deriving DecidableEq, Repr

/-- The reviews currently associated with a vehicle
(`SELECT ... FROM reviews WHERE vehicle_id = vid`). -/
def reviewsFor (db : DB) (vid : Nat) : List Review :=
  db.reviews.filter (fun r => r.vehicle_id == vid)

/-- `COALESCE(AVG(rating::numeric), 0)`: the arithmetic mean of the ratings,
0 when the list is empty. -/
def avgRating (rs : List Review) : ℚ :=
  if rs.isEmpty then 0 else ((rs.map (fun r => (r.rating : ℚ))).sum) / rs.length

/-- The trigger function `update_vehicle_rating`
(src/unnamed/part_004 lines 266-285): recompute `rating` and
`total_reviews` of the vehicle with id `vid` from the current reviews. -/
def update_vehicle_rating (db : DB) (vid : Nat) : DB :=
  { db with
    vehicles := db.vehicles.map (fun v =>
      if v.id == vid then
        { v with
          rating := avgRating (reviewsFor db vid),
          total_reviews := (reviewsFor db vid).length }
      else v) }

/-- `INSERT INTO reviews` followed by the `AFTER INSERT` firing of
`update_vehicle_rating_trigger` on `NEW.vehicle_id`
(src/unnamed/part_004 lines 288-291: `COALESCE(NEW.vehicle_id, OLD.vehicle_id)`
is `NEW.vehicle_id` on insert). -/
def insertReview (db : DB) (r : Review) : DB :=
  update_vehicle_rating { db with reviews := db.reviews ++ [r] } r.vehicle_id

/-- `UPDATE reviews SET ... WHERE id = rid` followed by the `AFTER UPDATE`
firing of `update_vehicle_rating_trigger` on `NEW.vehicle_id`
(`COALESCE(NEW.vehicle_id, OLD.vehicle_id)` is `NEW.vehicle_id` on update).
`f` maps the old row to the new row; a non-matching `rid` updates nothing
and fires no trigger. -/
def updateReview (db : DB) (rid : Nat) (f : Review → Review) : DB :=
  match db.reviews.find? (fun r => r.id == rid) with
  | none => db
  | some old =>
      update_vehicle_rating
        { db with reviews := db.reviews.map (fun r => if r.id == rid then f r else r) }
        (f old).vehicle_id

/-- `DELETE FROM reviews WHERE id = rid` followed by the `AFTER DELETE`
firing of `update_vehicle_rating_trigger` on `OLD.vehicle_id`
(`COALESCE(NEW.vehicle_id, OLD.vehicle_id)` is `OLD.vehicle_id` on delete).
A non-matching `rid` deletes nothing and fires no trigger. -/
def deleteReview (db : DB) (rid : Nat) : DB :=
  match db.reviews.find? (fun r => r.id == rid) with
  | none => db
  | some old =>
      update_vehicle_rating
        { db with reviews := db.reviews.filter (fun r => r.id != rid) }
        old.vehicle_id

/-- The aggregate-consistency invariant: every vehicle's stored `rating` is
the mean of its current reviews' ratings (0 when none) and its stored
`total_reviews` is their count. -/
def aggConsistent (db : DB) : Prop :=
  ∀ v ∈ db.vehicles,
    v.rating = avgRating (reviewsFor db v.id) ∧
    v.total_reviews = (reviewsFor db v.id).length

instance (db : DB) : Decidable (aggConsistent db) := by
  unfold aggConsistent; infer_instance

/-- Primary-key uniqueness of `reviews.id`
(`id uuid PRIMARY KEY`, src/unnamed/part_004 line 110). -/
def reviewIdsNodup (db : DB) : Prop :=
  (db.reviews.map (fun r => r.id)).Nodup

instance (db : DB) : Decidable (reviewIdsNodup db) := by
  unfold reviewIdsNodup; infer_instance

/-- The error kinds of the core (spec section 7). -/
inductive OpError where
  | InvalidDateRange
  | VehicleUnavailable
  | Unauthorized
  | ReviewNotAllowed
  | DuplicateReview
  | NotFound
  | UniqueViolation
  | CheckViolation
deriving DecidableEq, Repr

/-- The RLS policy `Users can create reviews for their bookings`
(src/unnamed/part_004 lines 214-224): the inserted row's `user_id` is the
requester and a booking with that id exists that is owned by the requester
and has status `completed`.  The inserted row is always built with
`user_id := requester`, so the policy reduces to the booking condition. -/
def reviewPolicyOk (db : DB) (requester bookingId : Nat) : Bool :=
  db.bookings.any (fun b =>
    b.id == bookingId && b.user_id == requester && b.status == "completed")

/-- The `UNIQUE(user_id, booking_id)` constraint of `reviews`
(src/unnamed/part_004 line 117): a prior review by this user for this
booking already exists. -/
def duplicateReviewExists (db : DB) (requester bookingId : Nat) : Bool :=
  db.reviews.any (fun r => r.user_id == requester && r.booking_id == bookingId)

/-- `submitReview` (spec section 6): insert a review as the requester.
The deciding code is the SQL of src/unnamed/part_004: the RLS `WITH CHECK`
policy is evaluated first (`ReviewNotAllowed`), then the row's
`CHECK (rating >= 1 AND rating <= 5)` (line 114, `CheckViolation`), then
the `UNIQUE(user_id, booking_id)` index (line 117, `DuplicateReview`);
a successful insert fires `update_vehicle_rating_trigger`.  The thin
client wrapper ordering these database errors is not under src/ and
follows the spec's error names. -/
def submitReview (db : DB) (requester vehicleId bookingId : Nat)
    (rating : Nat) (comment : Option String) (newId : Nat) :
    Except OpError DB :=
  if ¬ reviewPolicyOk db requester bookingId then
    .error .ReviewNotAllowed
  else if ¬ (1 ≤ rating ∧ rating ≤ 5) then
    .error .CheckViolation
  else if duplicateReviewExists db requester bookingId then
    .error .DuplicateReview
  else
    .ok (insertReview db
      { id := newId, user_id := requester, vehicle_id := vehicleId,
        booking_id := bookingId, rating := rating, comment := comment })

/-- `createBooking` (spec section 4.1).  Modelled from the spec: the
client screen that performs the booking insert is not under src/; the
date check is the `valid_dates CHECK (end_date > start_date)` constraint
(src/unnamed/part_004 line 96), the vehicle-availability check and the
check order (dates first, then availability) follow spec section 4.1, and
on success `status` and `payment_status` take the schema defaults
`'pending'` (lines 78-79) with the row owned by the requester (RLS
`WITH CHECK (auth.uid() = user_id)`, lines 177-179). -/
def createBooking (db : DB) (requester vehicleId : Nat)
    (startDate endDate : Int) (pickup : String) (totalPrice : ℚ)
    (newId : Nat) (now : Int) : Except OpError DB :=
  if endDate ≤ startDate then
    .error .InvalidDateRange
  else if ¬ db.vehicles.any (fun v => v.id == vehicleId && v.available) then
    .error .VehicleUnavailable
  else
    .ok { db with bookings := db.bookings ++
      [{ id := newId, user_id := requester, vehicle_id := vehicleId,
         start_date := startDate, end_date := endDate,
         pickup_location := pickup, total_price := totalPrice,
         status := "pending", payment_status := "pending",
         created_at := now }] }

/-- The date-validity invariant of `bookings`
(`CONSTRAINT valid_dates CHECK (end_date > start_date)`,
src/unnamed/part_004 line 96). -/
def datesValid (db : DB) : Prop :=
  ∀ b ∈ db.bookings, b.start_date < b.end_date

instance (db : DB) : Decidable (datesValid db) := by
  unfold datesValid; infer_instance

/-- Adding a favorite: `INSERT INTO favorites` under the
`UNIQUE(user_id, vehicle_id)` constraint (src/unnamed/part_004 line 105):
inserting an already-present pair is rejected by the unique index and
changes nothing. -/
def addFavorite (db : DB) (u v newId : Nat) : Except OpError DB :=
  if db.favorites.any (fun f => f.user_id == u && f.vehicle_id == v) then
    .error .UniqueViolation
  else
    .ok { db with favorites := db.favorites ++ [{ id := newId, user_id := u, vehicle_id := v }] }

/-- The favorite-uniqueness invariant: no two rows share a
(user_id, vehicle_id) pair. -/
def favoritesUnique (db : DB) : Prop :=
  db.favorites.Pairwise (fun f g => ¬ (f.user_id = g.user_id ∧ f.vehicle_id = g.vehicle_id))

instance (db : DB) : Decidable (favoritesUnique db) := by
  unfold favoritesUnique; infer_instance

/-- `isUpcoming` (src/app/(tabs)/index.tsx lines 591-595): a booking is
upcoming when its start date is strictly in the future or its status is
`active`.  `now` is the current time. -/
def isUpcoming (b : Booking) (now : Int) : Bool :=
  now < b.start_date || b.status == "active"

/-- `fetchBookings` (src/app/(tabs)/index.tsx lines 503-536): select the
bookings whose `user_id` equals the requesting identity, ordered by
`created_at` descending. -/
def fetchBookings (db : DB) (userId : Nat) : List Booking :=
  ((db.bookings.filter (fun b => b.user_id == userId)).mergeSort
    (fun a b => b.created_at ≤ a.created_at))

/-- The single hardcoded admin email
(src/lib/auth.ts lines 21 and 73, src/unnamed/part_004 line 253). -/
def ADMIN_EMAIL : String := "sandewilliam594@gmail.com"

/-- The admin flag computed by `signIn` (src/lib/auth.ts lines 11-36):
true for the hardcoded admin email, otherwise `profile?.is_admin || false`
for the stored profile (none when no profile row was found). -/
def signIn_isAdmin (email : String) (profile : Option Profile) : Bool :=
  if email == ADMIN_EMAIL then true
  else match profile with
    | some p => p.is_admin
    | none => false

/-- The `is_admin` field of the user returned by `getCurrentUser`
(src/lib/auth.ts lines 66-101): true for the hardcoded admin email,
otherwise `profile?.is_admin || false`. -/
def getCurrentUser_is_admin (email : String) (profile : Option Profile) : Bool :=
  if email == ADMIN_EMAIL then true
  else match profile with
    | some p => p.is_admin
    | none => false

/-- The rows returned by the revenue query of `fetchDashboardStats`
(src/app/admin/index.tsx lines 72-75): `select('total_price')` over the
bookings with `payment_status = 'completed'`; each fetched cell may in
principle be absent, hence `Option`. -/
def fetchRevenueRows (db : DB) : List (Option ℚ) :=
  (db.bookings.filter (fun b => b.payment_status == "completed")).map
    (fun b => some b.total_price)

/-- The client-side reduction of `fetchDashboardStats`
(src/app/admin/index.tsx line 77):
`reduce((sum, booking) => sum + (booking.total_price || 0), 0)`. -/
def dashboardRevenue (rows : List (Option ℚ)) : ℚ :=
  rows.foldl (fun sum p => sum + p.getD 0) 0

/-! Concrete database states used to instantiate the theorems. -/

/-- A vehicle carrying one review's worth of aggregate data. -/
def cexVehicleA : Vehicle :=
  { id := 1, name := "Toyota Camry 2024", price_per_day := 45, location := "Downtown",
    available := true, rating := 4, total_reviews := 1 }

/-- A vehicle with no reviews. -/
def cexVehicleB : Vehicle :=
  { id := 2, name := "Honda CR-V 2023", price_per_day := 65, location := "Airport",
    available := true, rating := 0, total_reviews := 0 }

/-- A completed booking of vehicle 1 by user 7. -/
def cexBooking : Booking :=
  { id := 3, user_id := 7, vehicle_id := 1, start_date := 0, end_date := 5,
    pickup_location := "Downtown", total_price := 180, status := "completed",
    payment_status := "completed", created_at := 0 }

/-- The single review of vehicle 1, written by user 7 for booking 3. -/
def cexReview : Review :=
  { id := 10, user_id := 7, vehicle_id := 1, booking_id := 3, rating := 4, comment := none }

/-- A consistent state: one review for vehicle 1, none for vehicle 2. -/
def cexDb : DB :=
  { profiles := [], vehicles := [cexVehicleA, cexVehicleB], bookings := [cexBooking],
    favorites := [], reviews := [cexReview] }

/-- A vehicle with no reviews, used for witness states. -/
def witVehicle : Vehicle :=
  { id := 5, name := "Tesla Model 3 2024", price_per_day := 95, location := "Tech District",
    available := true, rating := 0, total_reviews := 0 }

/-- A small consistent state with a completed booking and no reviews. -/
def witDb : DB :=
  { profiles := [], vehicles := [witVehicle],
    bookings := [{ id := 3, user_id := 7, vehicle_id := 5, start_date := 0, end_date := 5,
                   pickup_location := "Tech District", total_price := 180,
                   status := "completed", payment_status := "completed", created_at := 0 }],
    favorites := [], reviews := [] }

/-- A review user 7 may submit for booking 3 in `witDb`. -/
def witReview : Review :=
  { id := 11, user_id := 7, vehicle_id := 5, booking_id := 3, rating := 5, comment := none }

/-- A copy of `cexBooking` differing only in fields irrelevant to the
upcoming/past classification. -/
def cexBookingCopy : Booking :=
  { cexBooking with total_price := 999, pickup_location := "Airport" }

/-- A state whose favorites already contain the pair (user 7, vehicle 5). -/
def favDb : DB :=
  { profiles := [], vehicles := [witVehicle], bookings := [],
    favorites := [{ id := 1, user_id := 7, vehicle_id := 5 }], reviews := [] }

/-! Lemmas about the rating-aggregation trigger. -/

lemma reviewsFor_update_vehicle_rating (db : DB) (vid x : Nat) :
    reviewsFor (update_vehicle_rating db vid) x = reviewsFor db x := rfl

/-- After the trigger recomputes vehicle `vid`, the whole state is
consistent provided every vehicle other than `vid` was already
consistent with the current reviews. -/
lemma aggConsistent_of_stale_free (db : DB) (vid : Nat)
    (h : ∀ v ∈ db.vehicles, v.id ≠ vid →
      v.rating = avgRating (reviewsFor db v.id) ∧
      v.total_reviews = (reviewsFor db v.id).length) :
    aggConsistent (update_vehicle_rating db vid) := by
  intro v' hv'
  rw [reviewsFor_update_vehicle_rating]
  simp only [update_vehicle_rating, List.mem_map] at hv'
  obtain ⟨v, hv, rfl⟩ := hv'
  by_cases hid : v.id = vid
  · simp [hid]
  · simp only [beq_eq_false_iff_ne, ne_eq, hid, if_neg, beq_iff_eq]
    exact h v hv hid

/-- Inserting a review keeps every vehicle's aggregates consistent. -/
lemma aggConsistent_insertReview (db : DB) (hagg : aggConsistent db) (r : Review) :
    aggConsistent (insertReview db r) := by
  unfold insertReview
  apply aggConsistent_of_stale_free
  intro v hv hid
  have hrev : reviewsFor { db with reviews := db.reviews ++ [r] } v.id = reviewsFor db v.id := by
    simp only [reviewsFor, List.filter_append]
    have : List.filter (fun s => s.vehicle_id == v.id) [r] = [] := by
      simp [List.filter_cons, Ne.symm hid]
    rw [this, List.append_nil]
  rw [hrev]
  exact hagg v hv

/-- Deleting a review keeps every vehicle's aggregates consistent
(review ids are primary keys, so the deleted row is unique). -/
lemma aggConsistent_deleteReview (db : DB) (hagg : aggConsistent db)
    (hpk : reviewIdsNodup db) (rid : Nat) :
    aggConsistent (deleteReview db rid) := by
  unfold deleteReview
  split
  · exact hagg
  · rename_i old hfind
    apply aggConsistent_of_stale_free
    intro v hv hid
    have hold_mem : old ∈ db.reviews := List.mem_of_find?_eq_some hfind
    have hold_id : old.id = rid := by simpa using List.find?_some hfind
    have key : reviewsFor { db with reviews := db.reviews.filter (fun r => r.id != rid) } v.id
        = reviewsFor db v.id := by
      simp only [reviewsFor]
      rw [List.filter_filter]
      apply List.filter_congr
      intro x hx
      by_cases hveh : x.vehicle_id = v.id
      · have hxid : x.id ≠ rid := by
          intro hxr
          have hxold : x = old :=
            List.inj_on_of_nodup_map hpk hx hold_mem (by rw [hxr, hold_id])
          rw [hxold] at hveh
          exact hid hveh.symm
        simp [hveh, hxid]
      · simp [hveh]
    rw [key]
    exact hagg v hv

/-- Updating a review that stays on the same vehicle keeps every
vehicle's aggregates consistent. -/
lemma aggConsistent_updateReview (db : DB) (hagg : aggConsistent db)
    (hpk : reviewIdsNodup db) (rid : Nat) (f : Review → Review)
    (hveh : ∀ r, (f r).vehicle_id = r.vehicle_id) :
    aggConsistent (updateReview db rid f) := by
  unfold updateReview
  split
  · exact hagg
  · rename_i old hfind
    apply aggConsistent_of_stale_free
    intro v hv hid
    rw [hveh old] at hid
    have hold_mem : old ∈ db.reviews := List.mem_of_find?_eq_some hfind
    have hold_id : old.id = rid := by simpa using List.find?_some hfind
    have key : reviewsFor
        { db with reviews := db.reviews.map (fun r => if r.id == rid then f r else r) } v.id
        = reviewsFor db v.id := by
      simp only [reviewsFor]
      rw [List.filter_map]
      have h1 : ((fun s => s.vehicle_id == v.id) ∘ (fun r => if r.id == rid then f r else r))
          = fun r => r.vehicle_id == v.id := by
        funext r
        by_cases h : r.id = rid <;> simp [h, hveh]
      rw [h1]
      conv_rhs => rw [← List.map_id (db.reviews.filter (fun r => r.vehicle_id == v.id))]
      apply List.map_congr_left
      intro x hx
      rw [List.mem_filter] at hx
      obtain ⟨hxmem, hxveh⟩ := hx
      have hxid : x.id ≠ rid := by
        intro hxr
        have hxold : x = old :=
          List.inj_on_of_nodup_map hpk hxmem hold_mem (by rw [hxr, hold_id])
        rw [hxold] at hxveh
        exact hid (beq_iff_eq.mp hxveh).symm
      simp [hxid]
    rw [key]
    exact hagg v hv

/-- C1 (amended): in a state whose vehicle aggregates are consistent and
whose review ids are unique, aggregate consistency — every vehicle's
stored rating equals the mean of its current reviews' ratings (0 when
none) and its stored total_reviews equals their count — is preserved by
every review insert, by every review delete, and by every review update
that does not change the review's vehicle_id.  (An update that moves a
review to a different vehicle recomputes only the destination vehicle
and can leave the source vehicle's stored aggregates stale; see the
counterexample.) -/
theorem review_mutations_preserve_aggregates (db : DB)
    (hagg : aggConsistent db) (hpk : reviewIdsNodup db) :
    (∀ r : Review, aggConsistent (insertReview db r)) ∧
    (∀ rid : Nat, aggConsistent (deleteReview db rid)) ∧
    (∀ (rid : Nat) (f : Review → Review),
      (∀ r, (f r).vehicle_id = r.vehicle_id) → aggConsistent (updateReview db rid f)) :=
  ⟨fun r => aggConsistent_insertReview db hagg r,
   fun rid => aggConsistent_deleteReview db hagg hpk rid,
   fun rid f hf => aggConsistent_updateReview db hagg hpk rid f hf⟩

/-- Witness for C1: inserting a review into the concrete consistent state
`witDb` yields a consistent state. -/
theorem review_mutations_preserve_aggregates_witness :
    aggConsistent (insertReview witDb witReview) :=
  (review_mutations_preserve_aggregates witDb (by decide) (by decide)).1 witReview

/-- Counterexample for C1 as stated: `cexDb` is consistent and has unique
review ids, yet updating review 10 so that it moves from vehicle 1 to
vehicle 2 leaves vehicle 1's stored aggregates stale (total_reviews is
still 1 although vehicle 1 has no reviews left), so the state reached
after this update settles violates the claimed invariant. -/
theorem review_update_moves_vehicle_counterexample :
    aggConsistent cexDb ∧ reviewIdsNodup cexDb ∧
    ¬ aggConsistent (updateReview cexDb 10 (fun r => { r with vehicle_id := 2 })) := by
  refine ⟨?_, by decide, ?_⟩
  · intro v hv
    simp [cexDb, cexVehicleA, cexVehicleB] at hv
    rcases hv with rfl | rfl <;>
      norm_num [cexVehicleA, cexVehicleB, reviewsFor, avgRating, cexDb, cexReview]
  · intro h
    have hmem : { cexVehicleA with rating := 4, total_reviews := 1 } ∈
        (updateReview cexDb 10 (fun r => { r with vehicle_id := 2 })).vehicles := by
      norm_num [updateReview, cexDb, cexReview, update_vehicle_rating, cexVehicleA]
    have := (h _ hmem).2
    norm_num [updateReview, cexDb, cexReview, update_vehicle_rating, reviewsFor,
      cexVehicleA] at this

/-- C2: submitReview succeeds only when the referenced booking exists, is
owned by the requester and has status `completed`, and no review by this
requester for this booking exists yet; a violated ownership/completion
precondition fails with `ReviewNotAllowed`, and (for an in-range rating,
per the operation's declared input domain 1-5) a second review for the
same (requester, booking) pair fails with `DuplicateReview`. -/
theorem submitReview_preconditions (db : DB) (requester vehicleId bookingId rating : Nat)
    (comment : Option String) (newId : Nat) :
    (reviewPolicyOk db requester bookingId = true ↔
      ∃ b ∈ db.bookings, b.id = bookingId ∧ b.user_id = requester ∧ b.status = "completed") ∧
    (duplicateReviewExists db requester bookingId = true ↔
      ∃ r ∈ db.reviews, r.user_id = requester ∧ r.booking_id = bookingId) ∧
    (∀ db', submitReview db requester vehicleId bookingId rating comment newId = .ok db' →
      reviewPolicyOk db requester bookingId = true ∧
      duplicateReviewExists db requester bookingId = false) ∧
    (reviewPolicyOk db requester bookingId = false →
      submitReview db requester vehicleId bookingId rating comment newId
        = .error .ReviewNotAllowed) ∧
    (reviewPolicyOk db requester bookingId = true → 1 ≤ rating → rating ≤ 5 →
      duplicateReviewExists db requester bookingId = true →
      submitReview db requester vehicleId bookingId rating comment newId
        = .error .DuplicateReview) := by
  refine ⟨?_, ?_, ?_, ?_, ?_⟩
  · simp [reviewPolicyOk, List.any_eq_true, and_assoc]
  · simp [duplicateReviewExists, List.any_eq_true]
  · intro db' hok
    unfold submitReview at hok
    by_cases h1 : reviewPolicyOk db requester bookingId
    · by_cases h2 : 1 ≤ rating ∧ rating ≤ 5
      · by_cases h3 : duplicateReviewExists db requester bookingId
        · simp [h1, h2, h3] at hok
        · exact ⟨h1, by simpa using h3⟩
      · simp [h1, h2] at hok
    · simp [h1] at hok
  · intro h1
    unfold submitReview
    simp [h1]
  · intro h1 h2 h3 h4
    unfold submitReview
    simp [h1, h2, h3, h4]

/-- Witness for C2: in `cexDb`, user 7 already reviewed booking 3, so a
second submission is rejected as a duplicate. -/
theorem submitReview_preconditions_witness :
    submitReview cexDb 7 1 3 5 none 99 = .error .DuplicateReview :=
  (submitReview_preconditions cexDb 7 1 3 5 none 99).2.2.2.2
    (by decide) (by decide) (by decide) (by decide)

/-- C3: creating a booking whose end date is not strictly after its start
date fails with `InvalidDateRange` and creates nothing, and every state
reached by a successful createBooking keeps the invariant that every
stored booking has `end_date > start_date`. -/
theorem createBooking_valid_dates (db : DB) (requester vehicleId : Nat)
    (startDate endDate : Int) (pickup : String) (price : ℚ) (newId : Nat) (now : Int) :
    (endDate ≤ startDate →
      createBooking db requester vehicleId startDate endDate pickup price newId now
        = .error .InvalidDateRange) ∧
    (∀ db', createBooking db requester vehicleId startDate endDate pickup price newId now
        = .ok db' → datesValid db → datesValid db') := by
  constructor
  · intro h
    unfold createBooking
    simp [h]
  · intro db' hok hdv
    unfold createBooking at hok
    by_cases h1 : endDate ≤ startDate
    · simp [h1] at hok
    · by_cases h2 : db.vehicles.any (fun v => v.id == vehicleId && v.available)
      · simp [h1, h2] at hok
        intro b hb
        rw [← hok] at hb
        simp at hb
        rcases hb with hb | rfl
        · exact hdv b hb
        · simpa using lt_of_not_le h1
      · simp [h1, h2] at hok

/-- Witness for C3: a creation attempt with end date 3 before start date 5
is rejected with `InvalidDateRange`. -/
theorem createBooking_valid_dates_witness :
    createBooking witDb 7 5 5 3 "Tech District" 100 20 0 = .error .InvalidDateRange :=
  (createBooking_valid_dates witDb 7 5 5 3 "Tech District" 100 20 0).1 (by decide)

/-- C5: every successful createBooking appends exactly one booking whose
status is `pending`, whose payment_status is `pending`, and whose
user_id is the requesting identity. -/
theorem createBooking_initializes_pending (db : DB) (requester vehicleId : Nat)
    (startDate endDate : Int) (pickup : String) (price : ℚ) (newId : Nat) (now : Int) :
    ∀ db', createBooking db requester vehicleId startDate endDate pickup price newId now
        = .ok db' →
      ∃ b : Booking, db'.bookings = db.bookings ++ [b] ∧
        b.status = "pending" ∧ b.payment_status = "pending" ∧ b.user_id = requester := by
  intro db' hok
  unfold createBooking at hok
  by_cases h1 : endDate ≤ startDate
  · simp [h1] at hok
  · by_cases h2 : db.vehicles.any (fun v => v.id == vehicleId && v.available)
    · simp [h1, h2] at hok
      exact ⟨_, by rw [← hok], rfl, rfl, rfl⟩
    · simp [h1, h2] at hok

/-- Witness for C5: a concrete successful creation by user 7 on vehicle 5
yields a pending booking owned by user 7. -/
theorem createBooking_initializes_pending_witness :
    ∃ b : Booking,
      ({ witDb with bookings := witDb.bookings ++
        [{ id := 20, user_id := 7, vehicle_id := 5, start_date := 0, end_date := 5,
           pickup_location := "Tech District", total_price := 180,
           status := "pending", payment_status := "pending", created_at := 0 }] } : DB).bookings
        = witDb.bookings ++ [b] ∧
      b.status = "pending" ∧ b.payment_status = "pending" ∧ b.user_id = 7 :=
  createBooking_initializes_pending witDb 7 5 0 5 "Tech District" 180 20 0 _ (by rfl)

/-- C6: with a valid date range, createBooking fails with
`VehicleUnavailable` when no stored vehicle has the requested id with its
available flag true, and every successful creation implies such a vehicle
exists. -/
theorem createBooking_requires_available (db : DB) (requester vehicleId : Nat)
    (startDate endDate : Int) (pickup : String) (price : ℚ) (newId : Nat) (now : Int)
    (hdate : startDate < endDate) :
    ((¬ ∃ v ∈ db.vehicles, v.id = vehicleId ∧ v.available = true) →
      createBooking db requester vehicleId startDate endDate pickup price newId now
        = .error .VehicleUnavailable) ∧
    (∀ db', createBooking db requester vehicleId startDate endDate pickup price newId now
        = .ok db' → ∃ v ∈ db.vehicles, v.id = vehicleId ∧ v.available = true) := by
  have h1 : ¬ endDate ≤ startDate := not_le.mpr hdate
  constructor
  · intro hnone
    unfold createBooking
    have h2 : ¬ db.vehicles.any (fun v => v.id == vehicleId && v.available) := by
      simpa [List.any_eq_true] using hnone
    simp [h1, h2]
  · intro db' hok
    unfold createBooking at hok
    by_cases h2 : db.vehicles.any (fun v => v.id == vehicleId && v.available)
    · simpa [List.any_eq_true] using h2
    · simp [h1, h2] at hok

/-- Witness for C6: booking the nonexistent vehicle 99 fails with
`VehicleUnavailable`. -/
theorem createBooking_requires_available_witness :
    createBooking witDb 7 99 0 5 "Tech District" 180 21 0 = .error .VehicleUnavailable :=
  (createBooking_requires_available witDb 7 99 0 5 "Tech District" 180 21 0
    (by decide)).1 (by decide)

/-- C4: a booking is classified upcoming exactly when its start date is
strictly later than the current time or its status is `active`
(otherwise it is past), and the classification depends only on
(start_date, status, current time). -/
theorem isUpcoming_classification (b b' : Booking) (now : Int) :
    (isUpcoming b now = true ↔ (now < b.start_date ∨ b.status = "active")) ∧
    (b.start_date = b'.start_date → b.status = b'.status →
      isUpcoming b now = isUpcoming b' now) := by
  constructor
  · simp [isUpcoming]
  · intro h1 h2
    simp [isUpcoming, h1, h2]

/-- Witness for C4: two bookings agreeing on start_date and status get
the same classification, at a concrete time. -/
theorem isUpcoming_classification_witness :
    isUpcoming cexBooking (-1) = isUpcoming cexBookingCopy (-1) :=
  (isUpcoming_classification cexBooking cexBookingCopy (-1)).2 rfl rfl

/-- C7: fetchBookings for an identity returns exactly the stored bookings
whose user_id is that identity. -/
theorem fetchBookings_only_own (db : DB) (userId : Nat) (b : Booking) :
    b ∈ fetchBookings db userId ↔ (b ∈ db.bookings ∧ b.user_id = userId) := by
  simp [fetchBookings, List.mem_mergeSort, List.mem_filter]

/-- C8: under the favorites uniqueness invariant, adding an
already-present (user, vehicle) pair fails with a unique violation and
changes nothing, and every successful add appends exactly the new pair
and preserves the invariant. -/
theorem addFavorite_unique (db : DB) (u v newId : Nat) (h : favoritesUnique db) :
    ((∃ f ∈ db.favorites, f.user_id = u ∧ f.vehicle_id = v) →
      addFavorite db u v newId = .error .UniqueViolation) ∧
    (∀ db', addFavorite db u v newId = .ok db' →
      favoritesUnique db' ∧
      db'.favorites = db.favorites ++ [{ id := newId, user_id := u, vehicle_id := v }]) := by
  constructor
  · intro hex
    unfold addFavorite
    have hc : db.favorites.any (fun f => f.user_id == u && f.vehicle_id == v) := by
      simpa [List.any_eq_true] using hex
    simp [hc]
  · intro db' hok
    unfold addFavorite at hok
    by_cases hc : db.favorites.any (fun f => f.user_id == u && f.vehicle_id == v)
    · simp [hc] at hok
    · simp [hc] at hok
      refine ⟨?_, by rw [← hok]⟩
      rw [← hok]
      unfold favoritesUnique at h ⊢
      rw [List.pairwise_append]
      refine ⟨h, by simp, ?_⟩
      intro a ha c hc'
      simp only [List.mem_singleton] at hc'
      subst hc'
      rintro ⟨hu, hv⟩
      apply hc
      rw [List.any_eq_true]
      exact ⟨a, ha, by simp [hu, hv]⟩

/-- Witness for C8: re-adding the favorite (user 7, vehicle 5) already in
`favDb` is rejected by the unique constraint. -/
theorem addFavorite_unique_witness :
    addFavorite favDb 7 5 2 = .error .UniqueViolation :=
  (addFavorite_unique favDb 7 5 2 (by decide)).1 (by decide)

/-- C9: both signIn and getCurrentUser report an identity admin-capable
exactly when its email is the configured admin email or its stored
profile has is_admin true; every other identity is reported non-admin. -/
theorem reported_admin_iff (email : String) (profile : Option Profile) :
    (signIn_isAdmin email profile = true ↔
      (email = ADMIN_EMAIL ∨ ∃ p, profile = some p ∧ p.is_admin = true)) ∧
    (getCurrentUser_is_admin email profile = true ↔
      (email = ADMIN_EMAIL ∨ ∃ p, profile = some p ∧ p.is_admin = true)) := by
  cases profile with
  | none =>
      by_cases h : email = ADMIN_EMAIL <;>
        simp [signIn_isAdmin, getCurrentUser_is_admin, h]
  | some p =>
      by_cases h : email = ADMIN_EMAIL <;>
        simp [signIn_isAdmin, getCurrentUser_is_admin, h]

lemma foldl_getD (rows : List (Option ℚ)) (a : ℚ) :
    rows.foldl (fun sum p => sum + p.getD 0) a = a + (rows.map (fun p => p.getD 0)).sum := by
  induction rows generalizing a with
  | nil => simp
  | cons x xs ih => simp [List.foldl_cons, ih, add_assoc]

/-- C10: the dashboard's total revenue is the sum of total_price over
exactly the bookings whose payment_status is `completed`, and a missing
total_price cell contributes 0 to the reduction. -/
theorem dashboardRevenue_completed_only (db : DB) :
    (dashboardRevenue (fetchRevenueRows db) =
      ((db.bookings.filter (fun b => b.payment_status == "completed")).map
        (fun b => b.total_price)).sum) ∧
    (∀ rows, dashboardRevenue (none :: rows) = dashboardRevenue rows) := by
  constructor
  · unfold dashboardRevenue fetchRevenueRows
    rw [foldl_getD]
    rw [List.map_map]
    simp only [Function.comp_def, Option.getD_some, zero_add]
  · intro rows
    unfold dashboardRevenue
    simp [foldl_getD]

end AriyeRental
